import Mathlib

/-!
Shallow embedding of the qrlocal public-tunnel subsystem (Go), covering the
provider registry, the tunnel session (`NewTunnel` / `connect` / `PublicURL` /
`Close`), the network-error classifier, and the CLI orchestration
(`runQRLocal` / `createPublicTunnel`).

External effects (subprocess spawning, the output stream, clock expiry,
context cancellation, the connectivity probe, `strconv.Atoi`) are supplied as
explicit environment values, so every operation is a total computable
function of its inputs.
-/

namespace QRLocal

/-! ## Go strings: lowercase and substring containment -/

/-- Prefix test on character lists (`hasPrefixList s p` is true when `p` is a
prefix of `s`). -/
def hasPrefixList : List Char → List Char → Bool
  | _, [] => true
  | [], _ :: _ => false
  | a :: as, b :: bs => a = b && hasPrefixList as bs

/-- Substring containment on character lists: does `s` contain `pat` as a
contiguous run?  Models Go `strings.Contains`. -/
def listContainsSub : List Char → List Char → Bool
  | [], pat => pat.isEmpty
  | a :: as, pat => hasPrefixList (a :: as) pat || listContainsSub as pat

/-- Go `strings.Contains s pat`. -/
def goContains (s pat : String) : Bool :=
  listContainsSub s.toList pat.toList

/-- Go `strings.ToLower` restricted to ASCII, which covers every string the
code lowercases (error messages and provider names). -/
def goToLower (s : String) : String :=
  String.mk (s.toList.map Char.toLower)

/-! ## Go errors and the network-error classifier -/

/-- A Go `error` value as seen by `isNetworkError`: its message text plus
whether it unwraps (`errors.As`) to a `net.Error` or a `*net.DNSError`. -/
structure GoErr where
  msg : String
  isNetError : Bool
  isDNSError : Bool

/-- The substring patterns of `isNetworkError`
(src/unnamed/part_001 lines 304-312). -/
def networkPatterns : List String :=
  ["no such host", "connection refused", "network is unreachable",
   "no route to host", "connection timed out", "i/o timeout",
   "executable file not found"]

/-- `isNetworkError` (src/unnamed/part_001 lines 288-321): true on a `nil`
check failure never (nil ↦ false), on `net.Error` / `*net.DNSError`, or when
the lowercased message contains one of the `networkPatterns`. -/
def isNetworkError : Option GoErr → Bool
  | none => false
  | some e =>
    if e.isNetError then true
    else if e.isDNSError then true
    else networkPatterns.any (fun pat => goContains (goToLower e.msg) pat)

/-! ## Providers and their URL patterns

A Go `*regexp.Regexp` is modelled by its `FindString` behaviour: a function
`String → String` returning the leftmost matched substring, or `""` when
there is no match.  All four built-in patterns have the shape
`https://[alphabet]+<literal suffix>` with a suffix beginning `.` and an
alphabet excluding `.`, for which leftmost scanning with a maximal alphabet
run is exactly Go (RE2) leftmost matching: a shorter run would require the
suffix to start on an alphabet character, which it cannot. -/

/-- `[a-zA-Z0-9]`. -/
def alnum (c : Char) : Bool := c.isAlpha || c.isDigit

/-- `[a-zA-Z0-9-]`. -/
def alnumDash (c : Char) : Bool := alnum c || c = '-'

/-- Try to match `https://[alphabet]+suffix` exactly at the head of `s`;
return the matched characters. -/
def matchAt (alpha : Char → Bool) (suffix : List Char) (s : List Char) :
    Option (List Char) :=
  let pre := "https://".toList
  if hasPrefixList s pre then
    let rest := s.drop pre.length
    let run := rest.takeWhile alpha
    let rest2 := rest.drop run.length
    if run ≠ [] ∧ hasPrefixList rest2 suffix then
      some (pre ++ run ++ suffix)
    else none
  else none

/-- Leftmost match: try each start position from the left. -/
def findURLAux (alpha : Char → Bool) (suffix : List Char) :
    List Char → Option (List Char)
  | [] => none
  | c :: cs =>
    match matchAt alpha suffix (c :: cs) with
    | some m => some m
    | none => findURLAux alpha suffix cs

/-- `FindString` of a pattern `https://[alphabet]+suffix`: the leftmost
matched substring, `""` when there is none. -/
def goFindURL (alpha : Char → Bool) (suffix : String) (line : String) :
    String :=
  match findURLAux alpha suffix.toList line.toList with
  | some m => String.mk m
  | none => ""

/-- `Provider` (src/unnamed/part_001 lines 23-29).  `URLRegex` holds the
compiled pattern, modelled by its `FindString` function. -/
structure Provider where
  Name : String
  Host : String
  Port : String
  User : String
  URLRegex : String → String

/-- Built-in provider `localhost.run` (src/unnamed/part_001 lines 33-39);
pattern `https://[a-zA-Z0-9]+\.lhr\.life`. -/
def LocalhostRun : Provider :=
  { Name := "localhost.run", Host := "localhost.run", Port := "22",
    User := "nokey", URLRegex := goFindURL alnum ".lhr.life" }

/-- Built-in provider `pinggy` (src/unnamed/part_001 lines 41-47);
pattern `https://[a-zA-Z0-9-]+\.a\.free\.pinggy\.link`. -/
def Pinggy : Provider :=
  { Name := "pinggy", Host := "a.pinggy.io", Port := "443",
    User := "a", URLRegex := goFindURL alnumDash ".a.free.pinggy.link" }

/-- Built-in provider `serveo` (src/unnamed/part_001 lines 49-55);
pattern `https://[a-zA-Z0-9]+\.serveo\.net`. -/
def Serveo : Provider :=
  { Name := "serveo", Host := "serveo.net", Port := "22",
    User := "serveo", URLRegex := goFindURL alnum ".serveo.net" }

/-- Built-in provider `tunnelto` (src/unnamed/part_001 lines 57-63);
pattern `https://[a-zA-Z0-9-]+\.tunnel\.to`. -/
def TunnelTo : Provider :=
  { Name := "tunnelto", Host := "tunnel.us.tunnel.to", Port := "22",
    User := "tunnel", URLRegex := goFindURL alnumDash ".tunnel.to" }

/-! ## The tunnel session -/

/-- `Tunnel` (src/unnamed/part_001 lines 112-121), restricted to the state
the claims observe: the captured URL, the port and provider, whether the
`done` channel has been closed (the monitor goroutine observed `cmd.Wait`
return), and whether `cancel` has been called on the session context. -/
structure Tunnel where
  publicURL : String
  localPort : Int
  provider : Provider
  doneClosed : Bool
  cancelled : Bool

/-- Tunnel `Config` (src/unnamed/part_001 lines 124-128).  `Timeout` is in
nanoseconds as Go `time.Duration`; `0` means unspecified. -/
structure TunnelConfig where
  LocalPort : Int
  Provider : QRLocal.Provider
  Timeout : Nat

/-- The remote-forward specification computed by `connect`
(src/unnamed/part_001 lines 159-165): `0:localhost:<port>` for the provider
named `pinggy` (dynamic allocation), `80:localhost:<port>` otherwise. -/
def remoteForward (p : Provider) (localPort : Int) : String :=
  if p.Name = "pinggy" then "0:localhost:" ++ toString localPort
  else "80:localhost:" ++ toString localPort

/-- The remote bind port `connect` requests for a provider: the numeric
prefix of `remoteForward`, 0 exactly for the dynamic-allocation provider
(`pinggy`), 80 for every other provider. -/
def remoteBindPort (p : Provider) : Nat :=
  if p.Name = "pinggy" then 0 else 80

/-- `<user>@<host>` (src/unnamed/part_001 line 166). -/
def userHost (p : Provider) : String := p.User ++ "@" ++ p.Host

/-- The ssh argument list built by `connect` (src/unnamed/part_001 lines
168-179).  `int(timeout.Seconds())` truncates nanoseconds to whole
seconds. -/
def sshArgs (p : Provider) (localPort : Int) (timeoutNs : Nat) : List String :=
  let args := ["-o", "StrictHostKeyChecking=no",
               "-o", "UserKnownHostsFile=/dev/null",
               "-o", "LogLevel=ERROR",
               "-o", "ConnectTimeout=" ++ toString (timeoutNs / 1000000000)]
  let args := if p.Port ≠ "22" then args ++ ["-p", p.Port] else args
  args ++ ["-R", remoteForward p localPort, userHost p]

/-- Outcome of the scanning goroutine (src/unnamed/part_001 lines 208-233):
either the first URL match, or the terminal stream condition (EOF without a
match, or a read error). -/
inductive ScanOutcome where
  | url (u : String)
  | eofNoURL
  | readErr (m : String)
  deriving DecidableEq

/-- The scanning loop over the merged output stream.  `lines` are the
successive `reader.ReadString` results (each ending in a newline except
possibly the last); `readFailure` is `some m` when the stream ends in a read
error rather than EOF.  For each nonempty line the provider pattern is
applied; the first match wins and the loop breaks. -/
def scanLines (p : Provider) : List String → Option String → ScanOutcome
  | [], none => .eofNoURL
  | [], some m => .readErr m
  | l :: ls, rf =>
    if l ≠ "" ∧ p.URLRegex l ≠ "" then .url (p.URLRegex l)
    else scanLines p ls rf

/-- The URL values the scanning goroutine sends on `urlChan`: it breaks out
of the loop right after the first send, so this mirrors the loop of
src/unnamed/part_001 lines 212-228 collecting its sends. -/
def urlSends (p : Provider) : List String → List String
  | [] => []
  | l :: ls =>
    if l ≠ "" ∧ p.URLRegex l ≠ "" then [p.URLRegex l]
    else urlSends p ls

/-- The external events `connect` interacts with: the `cmd.Start` result,
the output stream, and whether the timeout clock (as a function of the
deadline in nanoseconds) or the session context fires strictly before the
scanning goroutine resolves. -/
structure ConnectEnv where
  spawnErr : Option GoErr
  lines : List String
  readFailure : Option String
  timeoutFires : Nat → Bool
  ctxCancelled : Bool

/-- Terminal failures of `connect`, one per `return`-with-error site. -/
inductive ConnectErr where
  | tunnelUnreachable
  | launchFailed (m : String)
  | readError (m : String)
  | noURLProduced
  | connectTimeout
  | cancelled
  deriving DecidableEq

/-- The Go error strings attached to each `connect` failure
(src/unnamed/part_001 lines 200, 202, 222, 224, 252, 255). -/
def connectErrMsg : ConnectErr → String
  | .tunnelUnreachable =>
      "unable to connect to tunneling service: please check your internet connection"
  | .launchFailed m => "failed to start SSH tunnel: " ++ m
  | .readError m => "error reading output: " ++ m
  | .noURLProduced => "SSH connection closed without providing URL"
  | .connectTimeout => "timeout waiting for tunnel URL"
  | .cancelled => "tunnel cancelled"

/-- What a `connect` run produced: the session or its failure, the ssh
argument list it built, and whether `cmd.Start` succeeded (a subprocess was
actually started). -/
structure ConnectOutcome where
  result : Except ConnectErr Tunnel
  args : List String
  started : Bool

/-- `connect` (src/unnamed/part_001 lines 155-257).  The `select` race is
determinized by the environment: `ctxCancelled` / `timeoutFires` mean that
event fires strictly before the scanner resolves (cancellation checked
first when both would).  On success the matched URL is stored in the
session before `connect` returns. -/
def connect (t : Tunnel) (timeoutNs : Nat) (env : ConnectEnv) :
    ConnectOutcome :=
  let args := sshArgs t.provider t.localPort timeoutNs
  match env.spawnErr with
  | some e =>
    if isNetworkError (some e) then ⟨.error .tunnelUnreachable, args, false⟩
    else ⟨.error (.launchFailed e.msg), args, false⟩
  | none =>
    if env.ctxCancelled then ⟨.error .cancelled, args, true⟩
    else if env.timeoutFires timeoutNs then
      ⟨.error .connectTimeout, args, true⟩
    else
      match scanLines t.provider env.lines env.readFailure with
      | .url u => ⟨.ok { t with publicURL := u }, args, true⟩
      | .eofNoURL => ⟨.error .noURLProduced, args, true⟩
      | .readErr m => ⟨.error (.readError m), args, true⟩

/-- The timeout default of `NewTunnel` (src/unnamed/part_001 lines 132-134):
an unspecified (zero) timeout becomes `30 * time.Second` nanoseconds. -/
def effectiveTimeout (t : Nat) : Nat :=
  if t = 0 then 30 * 1000000000 else t

/-- The fresh session built by `NewTunnel` before `connect` runs
(src/unnamed/part_001 lines 138-144): the URL field holds Go's zero value
`""` until `Established`. -/
def initialTunnel (cfg : TunnelConfig) : Tunnel :=
  { publicURL := "", localPort := cfg.LocalPort, provider := cfg.Provider,
    doneClosed := false, cancelled := false }

/-- `NewTunnel` (src/unnamed/part_001 lines 131-152): substitute the default
timeout, build the session, run `connect`; on `connect` failure no session
escapes (the error is returned). -/
def NewTunnel (cfg : TunnelConfig) (env : ConnectEnv) : ConnectOutcome :=
  connect (initialTunnel cfg) (effectiveTimeout cfg.Timeout) env

/-- `PublicURL` (src/unnamed/part_001 lines 260-264). -/
def PublicURL (t : Tunnel) : String := t.publicURL

/-- `Close`'s two possible results (src/unnamed/part_001 lines 274-279):
`nil`, or the error `timeout waiting for tunnel cleanup`. -/
inductive CloseResult where
  | ok
  | closeTimeout
  deriving DecidableEq

/-- What a `Close` call produced: the session state afterwards, the result,
and whether the `select` blocked at all (it returns immediately when `done`
is already closed). -/
structure CloseOutcome where
  tunnel : Tunnel
  result : CloseResult
  waited : Bool

/-- `Close` (src/unnamed/part_001 lines 267-280): cancel the context, kill
the process, then wait on `done` against a 5-second clock.
`exitWithinBound` says whether the monitor goroutine closes `done` within
the 5-second bound of this call. -/
def Close (t : Tunnel) (exitWithinBound : Bool) : CloseOutcome :=
  let t1 : Tunnel := { t with cancelled := true }
  if t1.doneClosed then ⟨t1, .ok, false⟩
  else if exitWithinBound then
    ⟨{ t1 with doneClosed := true }, .ok, true⟩
  else ⟨t1, .closeTimeout, true⟩

/-! ## Configuration and provider lookup -/

/-- `config.ProviderConfig` (src/unnamed/part_002 lines 31-36). -/
structure ProviderConfig where
  Host : String
  Port : Int
  User : String
  URLRegex : String

/-- The provider-lookup part of `config.Config` (src/unnamed/part_002 lines
39-50).  Go maps are modelled as association lists with unique keys looked
up by exact name. -/
structure GoConfig where
  DefaultProvider : String
  Providers : List (String × ProviderConfig)
  CustomProviders : List (String × ProviderConfig)

/-- `(*Config).GetProvider` (src/unnamed/part_002 lines 155-167): built-in
provider map first, then custom providers. -/
def GoConfig.GetProvider (c : GoConfig) (name : String) :
    Option ProviderConfig :=
  match List.lookup name c.Providers with
  | some p => some p
  | none => List.lookup name c.CustomProviders

/-- Failures of provider resolution: an invalid URL regex in the
configuration, or a name absent from both configuration and built-ins. -/
inductive ProviderErr where
  | invalidRegex (name : String)
  | unknownProvider (name : String)
  deriving DecidableEq

/-- `ProviderFromConfig` (src/unnamed/part_001 lines 67-80).  `compile`
stands for `regexp.Compile`, yielding the compiled pattern's `FindString`
function or `none` on a syntax error.  The relay port is rendered with
`strconv.Itoa`. -/
def ProviderFromConfig (compile : String → Option (String → String))
    (name : String) (pc : ProviderConfig) : Except ProviderErr Provider :=
  match compile pc.URLRegex with
  | none => .error (.invalidRegex name)
  | some f =>
    .ok { Name := name, Host := pc.Host, Port := toString pc.Port,
          User := pc.User, URLRegex := f }

/-- The built-in fallback switch of `GetProvider` (src/unnamed/part_001
lines 92-103), on the lowercased name. -/
def getBuiltin (name : String) : Except ProviderErr Provider :=
  let n := goToLower name
  if n = "localhost.run" ∨ n = "localhostrun" then .ok LocalhostRun
  else if n = "pinggy" ∨ n = "pinggy.io" then .ok Pinggy
  else if n = "serveo" ∨ n = "serveo.net" then .ok Serveo
  else if n = "tunnelto" ∨ n = "tunnel.to" then .ok TunnelTo
  else .error (.unknownProvider name)

/-- The lowercased names the built-in switch accepts. -/
def builtinAliases : List String :=
  ["localhost.run", "localhostrun", "pinggy", "pinggy.io",
   "serveo", "serveo.net", "tunnelto", "tunnel.to"]

/-- `GetProvider` (src/unnamed/part_001 lines 83-104): configuration lookup
first (when a configuration is present), then the built-in fallback. -/
def GetProvider (compile : String → Option (String → String))
    (name : String) (cfg : Option GoConfig) : Except ProviderErr Provider :=
  match cfg with
  | some c =>
    match c.GetProvider name with
    | some pc => ProviderFromConfig compile name pc
    | none => getBuiltin name
  | none => getBuiltin name

/-! ## The CLI orchestration

Clipboard write and QR rendering are output side effects that happen after
the URL is determined and play no part in the claims; they are elided. -/

/-- The terminal failures of `runQRLocal` / `createPublicTunnel`
(src/unnamed/part_003). -/
inductive CLIErr where
  | invalidPort (arg : String)
  | portNotActive (port : Int)
  | offline
  | providerErr (e : ProviderErr)
  | tunnelErr (e : ConnectErr)
  | noLocalIP
  deriving DecidableEq

/-- The external world as `runQRLocal` sees it: the `strconv.Atoi` result
for the port argument, the `network.IsPortActive` probe, the
`tunnel.IsOnline` probe, `regexp.Compile`, the subprocess environment, and
the `network.GetLocalIP` result. -/
structure CLIEnv where
  atoiResult : Option Int
  portActive : Bool
  online : Bool
  compile : String → Option (String → String)
  connectEnv : ConnectEnv
  localIP : Option String

/-- A CLI run's visible outcome: the produced URL or failure, and whether an
ssh subprocess was started anywhere along the way. -/
structure CLIOutcome where
  result : Except CLIErr String
  started : Bool

/-- `createPublicTunnel` (src/unnamed/part_003 lines 318-360): connectivity
probe first, then provider-name defaulting and resolution, then
`NewTunnel` with a zero (defaulted) timeout; on success the session's
`PublicURL` is surfaced. -/
def createPublicTunnel (port : Int) (providerFlag : String)
    (cfg : GoConfig) (env : CLIEnv) : CLIOutcome :=
  if !env.online then ⟨.error .offline, false⟩
  else
    let providerName :=
      if providerFlag = "" then cfg.DefaultProvider else providerFlag
    match GetProvider env.compile providerName (some cfg) with
    | .error e => ⟨.error (.providerErr e), false⟩
    | .ok provider =>
      let out := NewTunnel ⟨port, provider, 0⟩ env.connectEnv
      match out.result with
      | .error e => ⟨.error (.tunnelErr e), out.started⟩
      | .ok t => ⟨.ok (PublicURL t), out.started⟩

/-- `runQRLocal` (src/unnamed/part_003 lines 249-316): parse and validate
the port (`err != nil || port < 1 || port > 65535` fails), check a local
listener is present, then branch public/local.  The local branch renders
`http://<ip>:<port>` from `network.GenerateLocalURL`
(src/pkg/network/network.go lines 79-86). -/
def runQRLocal (portArg : String) (publicFlag : Bool)
    (providerFlag : String) (cfg : GoConfig) (env : CLIEnv) : CLIOutcome :=
  match env.atoiResult with
  | none => ⟨.error (.invalidPort portArg), false⟩
  | some port =>
    if port < 1 ∨ port > 65535 then ⟨.error (.invalidPort portArg), false⟩
    else if !env.portActive then ⟨.error (.portNotActive port), false⟩
    else if publicFlag then createPublicTunnel port providerFlag cfg env
    else
      match env.localIP with
      | none => ⟨.error .noLocalIP, false⟩
      | some ip => ⟨.ok ("http://" ++ ip ++ ":" ++ toString port), false⟩

/-! ## Concrete instances used by witnesses and counterexamples -/

/-- `config.DefaultConfig` (src/unnamed/part_002 lines 53-86), provider
part. -/
def DefaultConfig : GoConfig :=
  { DefaultProvider := "localhost.run",
    Providers :=
      [("localhost.run",
        ⟨"localhost.run", 22, "nokey", "https://[a-zA-Z0-9]+\\.lhr\\.life"⟩),
       ("pinggy",
        ⟨"a.pinggy.io", 443, "a",
         "https://[a-zA-Z0-9-]+\\.a\\.free\\.pinggy\\.link"⟩),
       ("serveo",
        ⟨"serveo.net", 22, "serveo",
         "Forwarding HTTP traffic from (https://[a-zA-Z0-9-]+\\.(?:serveo\\.net|serveousercontent\\.com))"⟩),
       ("tunnelto",
        ⟨"tunnel.us.tunnel.to", 22, "tunnel",
         "https://[a-zA-Z0-9-]+\\.tunnel\\.to"⟩)],
    CustomProviders := [] }

/-- A subprocess environment whose first output line carries a
`localhost.run` URL (the spec's public-mode scenario). -/
def urlLineEnv : ConnectEnv :=
  { spawnErr := none,
    lines := ["Connect to https://abcd12.lhr.life or use a different server.\n"],
    readFailure := none,
    timeoutFires := fun _ => false,
    ctxCancelled := false }

/-- A subprocess environment whose output ends (EOF) without any URL. -/
def noURLEnv : ConnectEnv :=
  { spawnErr := none,
    lines := ["Warning: Permanently added host key.\n",
              "ssh: nothing to report\n"],
    readFailure := none,
    timeoutFires := fun _ => false,
    ctxCancelled := false }

/-- A representative tunnel configuration: port 3000 via `localhost.run`,
unspecified timeout. -/
def sampleTunnelConfig : TunnelConfig := ⟨3000, LocalhostRun, 0⟩

/-- The session `NewTunnel sampleTunnelConfig urlLineEnv` establishes. -/
def establishedTunnel : Tunnel :=
  { publicURL := "https://abcd12.lhr.life", localPort := 3000,
    provider := LocalhostRun, doneClosed := false, cancelled := false }

/-- An established session whose subprocess exit has not yet been
observed (`done` not closed). -/
def lingeringTunnel : Tunnel :=
  { publicURL := "https://abcd12.lhr.life", localPort := 3000,
    provider := LocalhostRun, doneClosed := false, cancelled := false }

/-- An established session whose subprocess exit has been observed. -/
def reapedTunnel : Tunnel :=
  { publicURL := "https://abcd12.lhr.life", localPort := 3000,
    provider := LocalhostRun, doneClosed := true, cancelled := false }

/-- The spawn error Go produces when the ssh binary is absent. -/
def execNotFoundErr : GoErr :=
  { msg := "exec: \"ssh\": executable file not found in $PATH",
    isNetError := false, isDNSError := false }

/-- A subprocess environment in which `cmd.Start` fails because the ssh
binary is absent. -/
def spawnFailEnv : ConnectEnv :=
  { spawnErr := some execNotFoundErr, lines := [], readFailure := none,
    timeoutFires := fun _ => false, ctxCancelled := false }

/-- A CLI environment whose port argument parsed to 0. -/
def cliEnvPortZero : CLIEnv :=
  { atoiResult := some 0, portActive := true, online := true,
    compile := fun _ => none, connectEnv := urlLineEnv,
    localIP := some "192.168.1.5" }

/-- A CLI environment in which the connectivity probe reports offline. -/
def offlineEnv : CLIEnv :=
  { atoiResult := some 3000, portActive := true, online := false,
    compile := fun _ => none, connectEnv := urlLineEnv,
    localIP := some "192.168.1.5" }

/-! ## Shared lemmas -/

/-- `Close` never changes the captured public URL. -/
theorem close_publicURL (t : Tunnel) (e : Bool) :
    ((Close t e).tunnel).publicURL = t.publicURL := by
  unfold Close
  by_cases hd : t.doneClosed <;> by_cases he : e <;> simp [hd, he]

/-- The scanning loop reports EOF-without-URL exactly when the stream ends
in EOF and no nonempty line matches the provider pattern. -/
theorem scanLines_eq_eofNoURL_iff (p : Provider) (lines : List String)
    (rf : Option String) :
    scanLines p lines rf = .eofNoURL ↔
      rf = none ∧ ∀ l ∈ lines, ¬(l ≠ "" ∧ p.URLRegex l ≠ "") := by
  induction lines with
  | nil => cases rf <;> simp [scanLines]
  | cons l ls ih =>
    by_cases h : l ≠ "" ∧ p.URLRegex l ≠ ""
    · simp [scanLines, h]
    · simp only [scanLines, if_neg h, ih, List.forall_mem_cons]
      tauto

/-- When the scanning loop reports a URL, that URL is nonempty and is the
single value the goroutine ever sends. -/
theorem scanLines_url (p : Provider) (lines : List String)
    (rf : Option String) (u : String) (h : scanLines p lines rf = .url u) :
    u ≠ "" ∧ urlSends p lines = [u] := by
  induction lines with
  | nil => cases rf <;> simp [scanLines] at h
  | cons l ls ih =>
    by_cases hc : l ≠ "" ∧ p.URLRegex l ≠ ""
    · rw [scanLines, if_pos hc] at h
      cases h
      exact ⟨hc.2, by rw [urlSends, if_pos hc]⟩
    · rw [scanLines, if_neg hc] at h
      obtain ⟨h1, h2⟩ := ih h
      exact ⟨h1, by rw [urlSends, if_neg hc]; exact h2⟩

/-- The scanning goroutine sends at most one URL. -/
theorem urlSends_length_le (p : Provider) (lines : List String) :
    (urlSends p lines).length ≤ 1 := by
  induction lines with
  | nil => simp [urlSends]
  | cons l ls ih =>
    by_cases hc : l ≠ "" ∧ p.URLRegex l ≠ ""
    · rw [urlSends, if_pos hc]; simp
    · rw [urlSends, if_neg hc]; exact ih

/-- `ProviderFromConfig` never fails with `unknownProvider`. -/
theorem providerFromConfig_ne_unknown
    (compile : String → Option (String → String)) (name n : String)
    (pc : ProviderConfig) :
    ProviderFromConfig compile name pc ≠ .error (.unknownProvider n) := by
  unfold ProviderFromConfig
  cases compile pc.URLRegex <;> simp

/-- The built-in switch fails (necessarily with `unknownProvider`) exactly
when the lowercased name is none of the accepted aliases. -/
theorem getBuiltin_unknown_iff (name : String) :
    getBuiltin name = .error (.unknownProvider name) ↔
      goToLower name ∉ builtinAliases := by
  simp only [getBuiltin, builtinAliases]
  split_ifs with h1 h2 h3 h4 <;> simp_all <;> tauto

/-- Inversion: `connect` succeeds only via a scanned URL, and the returned
session is the input session with exactly that URL written. -/
theorem connect_ok_inv (t0 : Tunnel) (d : Nat) (env : ConnectEnv) (t : Tunnel)
    (h : (connect t0 d env).result = .ok t) :
    ∃ u, scanLines t0.provider env.lines env.readFailure = .url u ∧
      t = { t0 with publicURL := u } := by
  cases hsp : env.spawnErr with
  | some e0 =>
    simp only [connect, hsp] at h
    split at h <;> simp at h
  | none =>
    simp only [connect, hsp] at h
    by_cases hc : env.ctxCancelled = true
    · rw [if_pos hc] at h; simp at h
    · rw [if_neg hc] at h
      by_cases htf : env.timeoutFires d = true
      · rw [if_pos htf] at h; simp at h
      · rw [if_neg htf] at h
        cases hscan : scanLines t0.provider env.lines env.readFailure with
        | url u =>
          rw [hscan] at h
          simp only [Except.ok.injEq] at h
          exact ⟨u, rfl, h.symm⟩
        | eofNoURL => rw [hscan] at h; simp at h
        | readErr m0 => rw [hscan] at h; simp at h

/-! ## Claims -/

/-- Claim C1: the remote-forward specification computed by `connect` is
`0:localhost:<localPort>` exactly for the provider whose remote bind port is
0 (the dynamic-allocation provider, `pinggy`) and `80:localhost:<localPort>`
for every other provider; the choice is a function of the Provider value
alone — any two providers with the same `Name` attribute get the same
specification. -/
theorem c1_remote_forward_provider_attribute (p : Provider) (lp : Int) :
    (remoteBindPort p = 0 → remoteForward p lp = "0:localhost:" ++ toString lp) ∧
    (remoteBindPort p ≠ 0 → remoteForward p lp = "80:localhost:" ++ toString lp) ∧
    remoteForward p lp = toString (remoteBindPort p) ++ ":localhost:" ++ toString lp ∧
    (remoteBindPort p = 0 ↔ p.Name = "pinggy") ∧
    (∀ q : Provider, q.Name = p.Name → remoteForward q lp = remoteForward p lp) := by
  by_cases h : p.Name = "pinggy"
  · have e1 : remoteForward p lp = "0:localhost:" ++ toString lp := by
      simp only [remoteForward, if_pos h]
    have e2 : remoteBindPort p = 0 := by simp only [remoteBindPort, if_pos h]
    refine ⟨fun _ => e1, fun hb => absurd e2 hb, ?_, ?_, ?_⟩
    · rw [e1, e2]; rfl
    · simp [e2, h]
    · intro q hq
      have hq2 : q.Name = "pinggy" := by rw [hq, h]
      simp only [remoteForward, if_pos hq2, if_pos h]
  · have e1 : remoteForward p lp = "80:localhost:" ++ toString lp := by
      simp only [remoteForward, if_neg h]
    have e2 : remoteBindPort p = 80 := by simp only [remoteBindPort, if_neg h]
    refine ⟨fun h0 => ?_, fun _ => e1, ?_, ?_, ?_⟩
    · rw [e2] at h0; exact absurd h0 (by decide)
    · rw [e1, e2]; rfl
    · constructor
      · intro h0; rw [e2] at h0; exact absurd h0 (by decide)
      · intro hn; exact absurd hn h
    · intro q hq
      have hq2 : ¬(q.Name = "pinggy") := by rw [hq]; exact h
      simp only [remoteForward, if_neg hq2, if_neg h]

/-- Witness for C1 at concrete providers: the built-in `pinggy` provider
gets dynamic allocation, `localhost.run` gets the fixed port 80. -/
theorem c1_witness :
    remoteForward Pinggy 3000 = "0:localhost:" ++ toString (3000 : Int) ∧
    remoteForward LocalhostRun 3000 = "80:localhost:" ++ toString (3000 : Int) :=
  ⟨(c1_remote_forward_provider_attribute Pinggy 3000).1 (by decide),
   (c1_remote_forward_provider_attribute LocalhostRun 3000).2.1 (by decide)⟩

/-- Counterexample to claim C2 as stated: `NewTunnel` itself performs no
port validation.  Called with the out-of-range `localPort = 0` it still
starts the subprocess and, when the stream yields a URL, succeeds and
returns a session — it does not reject the port. -/
theorem c2_counterexample :
    (NewTunnel ⟨0, LocalhostRun, 0⟩ urlLineEnv).started = true ∧
    (NewTunnel ⟨0, LocalhostRun, 0⟩ urlLineEnv).result =
      .ok { publicURL := "https://abcd12.lhr.life", localPort := 0,
            provider := LocalhostRun, doneClosed := false,
            cancelled := false } :=
  ⟨rfl, rfl⟩

/-- Claim C2 (amended): the port validation lives in the CLI entry point
`runQRLocal`, not in `NewTunnel`: when the port argument fails to parse or
parses outside [1, 65535], `runQRLocal` fails with the invalid-port error
and no tunnel session is created or subprocess started. -/
theorem c2_cli_port_validation (portArg : String) (pf : Bool) (prf : String)
    (cfg : GoConfig) (env : CLIEnv)
    (h : env.atoiResult = none ∨
      ∃ p, env.atoiResult = some p ∧ (p < 1 ∨ p > 65535)) :
    runQRLocal portArg pf prf cfg env = ⟨.error (.invalidPort portArg), false⟩ := by
  rcases h with h | ⟨p, hp, hr | hr⟩
  · simp [runQRLocal, h]
  · simp [runQRLocal, hp, hr]
  · simp [runQRLocal, hp, hr]

/-- Witness for C2 (amended) at port argument `0`. -/
theorem c2_witness :
    runQRLocal "0" true "" DefaultConfig cliEnvPortZero =
      ⟨.error (.invalidPort "0"), false⟩ :=
  c2_cli_port_validation "0" true "" DefaultConfig cliEnvPortZero
    (Or.inr ⟨0, rfl, Or.inl (by decide)⟩)

/-- Claim C3: when the subprocess starts and the first output line contains
a pattern match (and neither the timeout nor cancellation fires first),
`connect` succeeds, the session's public URL is exactly the matched
substring — not the whole line — and `PublicURL` keeps returning that same
string afterwards, also across `Close`. -/
theorem c3_first_line_match (cfg : TunnelConfig) (env : ConnectEnv)
    (l : String) (rest : List String) (m : String)
    (hspawn : env.spawnErr = none)
    (hcancel : env.ctxCancelled = false)
    (htime : ∀ d, env.timeoutFires d = false)
    (hlines : env.lines = l :: rest)
    (hne : l ≠ "")
    (hm : cfg.Provider.URLRegex l = m)
    (hm0 : m ≠ "") :
    (NewTunnel cfg env).result =
      .ok { initialTunnel cfg with publicURL := m } ∧
    PublicURL { initialTunnel cfg with publicURL := m } = m ∧
    ∀ e, PublicURL (Close { initialTunnel cfg with publicURL := m } e).tunnel = m := by
  have hcond : l ≠ "" ∧ cfg.Provider.URLRegex l ≠ "" := ⟨hne, by rw [hm]; exact hm0⟩
  have hscan : scanLines cfg.Provider env.lines env.readFailure = .url m := by
    rw [hlines]
    simp only [scanLines]
    rw [if_pos hcond, hm]
  refine ⟨?_, rfl, fun e => by simp only [PublicURL, close_publicURL]⟩
  simp [NewTunnel, connect, hspawn, hcancel, htime, initialTunnel, hscan]

/-- Witness for C3: the spec's scenario — pattern
`https://[a-zA-Z0-9]+\.lhr\.life` against the line
`Connect to https://abcd12.lhr.life or use a different server.` yields
exactly `https://abcd12.lhr.life`. -/
theorem c3_witness :
    (NewTunnel sampleTunnelConfig urlLineEnv).result =
      .ok { initialTunnel sampleTunnelConfig with
            publicURL := "https://abcd12.lhr.life" } ∧
    PublicURL { initialTunnel sampleTunnelConfig with
                publicURL := "https://abcd12.lhr.life" } =
      "https://abcd12.lhr.life" ∧
    ∀ e, PublicURL (Close { initialTunnel sampleTunnelConfig with
                            publicURL := "https://abcd12.lhr.life" } e).tunnel =
      "https://abcd12.lhr.life" :=
  c3_first_line_match sampleTunnelConfig urlLineEnv
    "Connect to https://abcd12.lhr.life or use a different server.\n" []
    "https://abcd12.lhr.life" rfl rfl (fun _ => rfl) rfl (by decide)
    (by decide) (by decide)

/-- Claim C4: with the subprocess started and neither timeout nor
cancellation firing first, `connect` fails with the no-URL-produced outcome
exactly when the stream reaches EOF without any nonempty line matching the
provider pattern; the scan is a total function of the finite stream, so it
never hangs past stream end. -/
theorem c4_eof_no_url (cfg : TunnelConfig) (env : ConnectEnv)
    (hspawn : env.spawnErr = none)
    (hcancel : env.ctxCancelled = false)
    (htime : ∀ d, env.timeoutFires d = false) :
    (NewTunnel cfg env).result = .error .noURLProduced ↔
      (env.readFailure = none ∧
        ∀ l ∈ env.lines, ¬(l ≠ "" ∧ cfg.Provider.URLRegex l ≠ "")) := by
  rw [← scanLines_eq_eofNoURL_iff cfg.Provider env.lines env.readFailure]
  simp only [NewTunnel, connect, hspawn, hcancel, htime, initialTunnel]
  cases hscan : scanLines cfg.Provider env.lines env.readFailure <;>
    simp [hscan]

/-- Witness for C4: a stream of two diagnostic lines and no URL makes
`connect` fail with the no-URL outcome at EOF. -/
theorem c4_witness :
    (NewTunnel sampleTunnelConfig noURLEnv).result = .error .noURLProduced :=
  (c4_eof_no_url sampleTunnelConfig noURLEnv rfl rfl (fun _ => rfl)).mpr
    ⟨rfl, by decide⟩

/-- Counterexample to claim C5 as stated: on a session whose subprocess exit
is never observed within the bound, the first `Close` reports the cleanup
timeout after waiting the full bound, and a second `Close` waits (blocks)
again for the full bound — and, if the exit is observed during the second
call's bound, even returns a different terminal outcome (`ok` after
`closeTimeout`). -/
theorem c5_counterexample :
    (Close lingeringTunnel false).result = .closeTimeout ∧
    (Close lingeringTunnel false).waited = true ∧
    (Close (Close lingeringTunnel false).tunnel false).result = .closeTimeout ∧
    (Close (Close lingeringTunnel false).tunnel false).waited = true ∧
    (Close (Close lingeringTunnel false).tunnel true).result = .ok :=
  ⟨rfl, rfl, rfl, rfl, rfl⟩

/-- Claim C5 (amended): every `Close` call returns within the bounded wait,
with outcome `ok` or `closeTimeout`; it reports `closeTimeout` (rather than
blocking forever) whenever the subprocess exit is unobserved within the
bound; and after a first `Close` that returned `ok`, a second `Close`
returns the same `ok` outcome immediately, without blocking at all.  (After
a first `Close` that timed out, a second call blocks again up to the bound
and reports the then-current status — see the counterexample.) -/
theorem c5_close_bounded_idempotent (t : Tunnel) (e : Bool) :
    ((Close t e).result = .ok ∨ (Close t e).result = .closeTimeout) ∧
    (t.doneClosed = false → e = false → (Close t e).result = .closeTimeout) ∧
    ((Close t e).result = .ok →
      ∀ e2, Close (Close t e).tunnel e2 = ⟨(Close t e).tunnel, .ok, false⟩) := by
  obtain ⟨url, lp, prov, dc, cc⟩ := t
  cases dc <;> cases e <;> simp [Close]

/-- Witness for C5 (amended): on a session whose exit was already observed,
`Close` returns `ok` and a second `Close` is an immediate no-op `ok`. -/
theorem c5_witness :
    Close (Close reapedTunnel true).tunnel false =
      ⟨(Close reapedTunnel true).tunnel, .ok, false⟩ :=
  (c5_close_bounded_idempotent reapedTunnel true).2.2 rfl false

/-- Claim C6: the public URL starts out empty (`PublicURL` of a
not-yet-established session is `""`), the scanning goroutine sends at most
one URL, and on success the session returned by `NewTunnel` carries as its
public URL exactly that single sent value — nonempty, assigned before the
session is handed back, and unchanged by any later `Close`. -/
theorem c6_url_single_assignment (cfg : TunnelConfig) (env : ConnectEnv) :
    PublicURL (initialTunnel cfg) = "" ∧
    (∀ p lines, (urlSends p lines).length ≤ 1) ∧
    (∀ t, (NewTunnel cfg env).result = .ok t →
      PublicURL t ≠ "" ∧
      urlSends cfg.Provider env.lines = [PublicURL t] ∧
      ∀ e, PublicURL (Close t e).tunnel = PublicURL t) := by
  refine ⟨rfl, urlSends_length_le, fun t h => ?_⟩
  obtain ⟨u, hscan, ht⟩ :=
    connect_ok_inv (initialTunnel cfg) (effectiveTimeout cfg.Timeout) env t h
  obtain ⟨hne, hsends⟩ :=
    scanLines_url (initialTunnel cfg).provider env.lines env.readFailure u hscan
  subst ht
  exact ⟨hne, hsends, fun e => close_publicURL _ e⟩

/-- Witness for C6: the established session of the scenario run carries the
single sent URL `https://abcd12.lhr.life`, and `Close` leaves it intact. -/
theorem c6_witness :
    PublicURL establishedTunnel ≠ "" ∧
    urlSends sampleTunnelConfig.Provider urlLineEnv.lines =
      [PublicURL establishedTunnel] ∧
    ∀ e, PublicURL (Close establishedTunnel e).tunnel =
      PublicURL establishedTunnel :=
  (c6_url_single_assignment sampleTunnelConfig urlLineEnv).2.2
    establishedTunnel rfl

/-- Claim C7: `NewTunnel` with an unspecified (zero) timeout behaves
identically to `NewTunnel` with the 30-second default — the whole outcome
(result, ssh argument list with its `ConnectTimeout` value, spawn status)
coincides, as does the deadline fed to the race. -/
theorem c7_zero_timeout_default (lp : Int) (p : Provider) (env : ConnectEnv) :
    NewTunnel ⟨lp, p, 0⟩ env = NewTunnel ⟨lp, p, 30 * 1000000000⟩ env ∧
    effectiveTimeout 0 = 30 * 1000000000 ∧
    sshArgs p lp (effectiveTimeout 0) =
      sshArgs p lp (effectiveTimeout (30 * 1000000000)) :=
  ⟨rfl, rfl, rfl⟩

/-- Claim C8: `GetProvider` resolves through the supplied configuration
first — when the name is present there, the result is exactly the Provider
built from that configuration entry; when it is absent (or no configuration
is given) the built-in fallback decides; and the unknown-provider error
occurs exactly when the name is absent from the configuration and its
lowercasing is none of the built-in aliases. -/
theorem c8_provider_resolution (compile : String → Option (String → String))
    (name : String) (cfg : Option GoConfig) :
    (∀ c pc, cfg = some c → c.GetProvider name = some pc →
      GetProvider compile name cfg = ProviderFromConfig compile name pc) ∧
    ((∀ c, cfg = some c → c.GetProvider name = none) →
      GetProvider compile name cfg = getBuiltin name) ∧
    (GetProvider compile name cfg = .error (.unknownProvider name) ↔
      ((∀ c, cfg = some c → c.GetProvider name = none) ∧
        goToLower name ∉ builtinAliases)) := by
  cases cfg with
  | none =>
    refine ⟨fun c pc hc => (nomatch hc), fun _ => rfl, ?_⟩
    rw [show GetProvider compile name none = getBuiltin name from rfl,
        getBuiltin_unknown_iff]
    constructor
    · intro hn; exact ⟨fun c hc => (nomatch hc), hn⟩
    · rintro ⟨h0, hn⟩; exact hn
  | some c =>
    cases hl : c.GetProvider name with
    | some pc =>
      have hres : GetProvider compile name (some c) =
          ProviderFromConfig compile name pc := by
        simp only [GetProvider, hl]
      refine ⟨?_, ?_, ?_⟩
      · intro c2 pc2 hc2 hl2
        cases hc2
        rw [hl] at hl2
        cases hl2
        exact hres
      · intro habs
        have := habs c rfl
        rw [hl] at this
        cases this
      · rw [hres]
        constructor
        · intro hu
          exact absurd hu (providerFromConfig_ne_unknown compile name name pc)
        · rintro ⟨habs, h0⟩
          have := habs c rfl
          rw [hl] at this
          cases this
    | none =>
      have hres : GetProvider compile name (some c) = getBuiltin name := by
        simp only [GetProvider, hl]
      refine ⟨?_, fun _ => hres, ?_⟩
      · intro c2 pc2 hc2 hl2
        cases hc2
        rw [hl] at hl2
        cases hl2
      · rw [hres, getBuiltin_unknown_iff]
        constructor
        · intro hn
          exact ⟨fun c2 hc2 => (by cases hc2; exact hl), hn⟩
        · rintro ⟨h0, hn⟩; exact hn

/-- Witness for C8: a name absent from both an empty custom configuration
and the built-ins fails with the unknown-provider error. -/
theorem c8_witness :
    GetProvider (fun _ => none) "doesnotexist" none =
      .error (.unknownProvider "doesnotexist") :=
  (c8_provider_resolution (fun _ => none) "doesnotexist" none).2.2.mpr
    ⟨fun c h => (nomatch h), by decide⟩

/-- Claim C9: whenever the connectivity probe reports offline, no run of the
CLI starts an ssh subprocess, `createPublicTunnel` fails with the offline
outcome before reaching `NewTunnel`, and a public-mode invocation that gets
past port validation and the listener check reports exactly the offline
error. -/
theorem c9_offline_before_spawn (portArg : String) (pf : Bool) (prf : String)
    (cfg : GoConfig) (env : CLIEnv) (hoff : env.online = false) :
    (runQRLocal portArg pf prf cfg env).started = false ∧
    (∀ port prf2 cfg2, createPublicTunnel port prf2 cfg2 env =
      ⟨.error .offline, false⟩) ∧
    (∀ p, env.atoiResult = some p → 1 ≤ p → p ≤ 65535 →
      env.portActive = true → pf = true →
      (runQRLocal portArg pf prf cfg env).result = .error .offline) := by
  have hcpt : ∀ port prf2 cfg2, createPublicTunnel port prf2 cfg2 env =
      ⟨.error .offline, false⟩ := by
    intro port prf2 cfg2
    simp only [createPublicTunnel, hoff]
    rfl
  refine ⟨?_, hcpt, ?_⟩
  · unfold runQRLocal
    cases hpr : env.atoiResult with
    | none => simp only [hpr]
    | some p =>
      simp only [hpr]
      by_cases h1 : p < 1 ∨ p > 65535
      · rw [if_pos h1]
      · rw [if_neg h1]
        by_cases h2 : env.portActive
        · simp only [h2, Bool.not_true, Bool.false_eq_true, if_false]
          by_cases h3 : pf
          · rw [if_pos h3, hcpt]
          · rw [if_neg h3]
            cases env.localIP <;> rfl
        · simp only [Bool.not_eq_true] at h2
          simp only [h2, Bool.not_false, if_true]
  · intro p hp h1 h2 hact hpf
    have hr : ¬(p < 1 ∨ p > 65535) := by omega
    simp only [runQRLocal, hp, hr, if_false, hact, Bool.not_true,
      Bool.false_eq_true, hpf, if_true, hcpt]

/-- Witness for C9: with the probe offline, the public-mode run on active
port 3000 reports the offline error and starts nothing. -/
theorem c9_witness :
    (runQRLocal "3000" true "" DefaultConfig offlineEnv).started = false ∧
    (runQRLocal "3000" true "" DefaultConfig offlineEnv).result =
      .error .offline :=
  ⟨(c9_offline_before_spawn "3000" true "" DefaultConfig offlineEnv rfl).1,
   (c9_offline_before_spawn "3000" true "" DefaultConfig offlineEnv rfl).2.2
     3000 rfl (by decide) (by decide) rfl rfl⟩

/-- Claim C10: any spawn error whose lowercased message contains
`executable file not found` is classified as a network error, so `connect`
reports the network-specific tunnel-unreachable outcome (with its
check-your-internet-connection message) instead of the generic
launch-failed one — in particular when the ssh binary is absent. -/
theorem c10_exec_not_found_network_error (e : GoErr) (cfg : TunnelConfig)
    (env : ConnectEnv)
    (hmsg : goContains (goToLower e.msg) "executable file not found" = true)
    (hsp : env.spawnErr = some e) :
    isNetworkError (some e) = true ∧
    (NewTunnel cfg env).result = .error .tunnelUnreachable ∧
    connectErrMsg .tunnelUnreachable =
      "unable to connect to tunneling service: please check your internet connection" := by
  have hnet : isNetworkError (some e) = true := by
    simp only [isNetworkError]
    by_cases h1 : e.isNetError
    · rw [if_pos h1]
    · rw [if_neg h1]
      by_cases h2 : e.isDNSError
      · rw [if_pos h2]
      · rw [if_neg h2]
        exact List.any_eq_true.mpr
          ⟨"executable file not found", by simp [networkPatterns], hmsg⟩
  refine ⟨hnet, ?_, rfl⟩
  simp only [NewTunnel, connect, hsp, hnet, if_true]

/-- Witness for C10: the real Go message for a missing ssh binary,
`exec: "ssh": executable file not found in $PATH`, is classified as a
network error and yields the tunnel-unreachable outcome. -/
theorem c10_witness :
    isNetworkError (some execNotFoundErr) = true ∧
    (NewTunnel sampleTunnelConfig spawnFailEnv).result =
      .error .tunnelUnreachable ∧
    connectErrMsg .tunnelUnreachable =
      "unable to connect to tunneling service: please check your internet connection" :=
  c10_exec_not_found_network_error execNotFoundErr sampleTunnelConfig
    spawnFailEnv (by decide) rfl

end QRLocal
